import Mathlib

/-!
Verification of the dskit QUIC memberlist transport
(`kv/memberlist/quic_transport.go`): a shallow embedding of the packet
framing codec (with its MD5 integrity trailer), the connection
dispatcher, the outbound writer, the accept-loop backoff, and the
listener construction, together with theorems about the spec claims.
-/

set_option maxRecDepth 4000

namespace DskitQuic

/-! ## MD5 (as `crypto/md5`, used by `writeTo` and `handleConnection`)

Bytes are modelled as `Nat` values below 256; 32-bit words as `Nat`
reduced modulo `2 ^ 32`. -/

/-- Truncate to a 32-bit word. -/
def w32 (x : Nat) : Nat := x % 4294967296

/-- Rotate a 32-bit word left by `r` bits (for `x < 2 ^ 32`, `r ≤ 32`). -/
def rotl32 (x r : Nat) : Nat := w32 ((x <<< r) + (x >>> (32 - r)))

/-- The 64 MD5 sine-derived constants (RFC 1321 table T). -/
def md5K : List Nat :=
  [0xd76aa478, 0xe8c7b756, 0x242070db, 0xc1bdceee,
   0xf57c0faf, 0x4787c62a, 0xa8304613, 0xfd469501,
   0x698098d8, 0x8b44f7af, 0xffff5bb1, 0x895cd7be,
   0x6b901122, 0xfd987193, 0xa679438e, 0x49b40821,
   0xf61e2562, 0xc040b340, 0x265e5a51, 0xe9b6c7aa,
   0xd62f105d, 0x02441453, 0xd8a1e681, 0xe7d3fbc8,
   0x21e1cde6, 0xc33707d6, 0xf4d50d87, 0x455a14ed,
   0xa9e3e905, 0xfcefa3f8, 0x676f02d9, 0x8d2a4c8a,
   0xfffa3942, 0x8771f681, 0x6d9d6122, 0xfde5380c,
   0xa4beea44, 0x4bdecfa9, 0xf6bb4b60, 0xbebfbc70,
   0x289b7ec6, 0xeaa127fa, 0xd4ef3085, 0x04881d05,
   0xd9d4d039, 0xe6db99e5, 0x1fa27cf8, 0xc4ac5665,
   0xf4292244, 0x432aff97, 0xab9423a7, 0xfc93a039,
   0x655b59c3, 0x8f0ccc92, 0xffeff47d, 0x85845dd1,
   0x6fa87e4f, 0xfe2ce6e0, 0xa3014314, 0x4e0811a1,
   0xf7537e82, 0xbd3af235, 0x2ad7d2bb, 0xeb86d391]

/-- The 64 per-round left-rotation amounts. -/
def md5S : List Nat :=
  [7, 12, 17, 22, 7, 12, 17, 22, 7, 12, 17, 22, 7, 12, 17, 22,
   5, 9, 14, 20, 5, 9, 14, 20, 5, 9, 14, 20, 5, 9, 14, 20,
   4, 11, 16, 23, 4, 11, 16, 23, 4, 11, 16, 23, 4, 11, 16, 23,
   6, 10, 15, 21, 6, 10, 15, 21, 6, 10, 15, 21, 6, 10, 15, 21]

/-- The MD5 round function applied at step `i` to words `b c d`. -/
def md5F (i b c d : Nat) : Nat :=
  if i < 16 then (b &&& c) ||| ((b ^^^ 0xffffffff) &&& d)
  else if i < 32 then (d &&& b) ||| ((d ^^^ 0xffffffff) &&& c)
  else if i < 48 then b ^^^ c ^^^ d
  else c ^^^ (b ||| (d ^^^ 0xffffffff))

/-- The message-word index used at step `i`. -/
def md5G (i : Nat) : Nat :=
  if i < 16 then i
  else if i < 32 then (5 * i + 1) % 16
  else if i < 48 then (3 * i + 5) % 16
  else (7 * i) % 16

/-- The four 32-bit MD5 chaining words. -/
structure MD5State where
  a : Nat
  b : Nat
  c : Nat
  d : Nat
deriving DecidableEq

/-- One of the 64 MD5 steps, over message words `ms`. -/
def md5Op (ms : List Nat) (st : MD5State) (i : Nat) : MD5State :=
  let f := w32 (md5F i st.b st.c st.d + st.a + md5K.getD i 0 + ms.getD (md5G i) 0)
  ⟨st.d, w32 (st.b + rotl32 f (md5S.getD i 0)), st.b, st.c⟩

/-- Decode four bytes as a little-endian 32-bit word. -/
def leWord4 (bs : List Nat) : Nat :=
  bs.getD 0 0 + 256 * bs.getD 1 0 + 65536 * bs.getD 2 0 + 16777216 * bs.getD 3 0

/-- Split a 64-byte chunk into its 16 little-endian words. -/
def chunkWords (c : List Nat) : List Nat :=
  (List.range 16).map (fun g => ((c.drop (4 * g)).take 4) |> leWord4)

/-- Process one 64-byte chunk. -/
def md5Chunk (st : MD5State) (c : List Nat) : MD5State :=
  let ms := chunkWords c
  let r := (List.range 64).foldl (md5Op ms) st
  ⟨w32 (st.a + r.a), w32 (st.b + r.b), w32 (st.c + r.c), w32 (st.d + r.d)⟩

/-- Process `n` chunks of 64 bytes each. -/
def md5Chunks : Nat → MD5State → List Nat → MD5State
  | 0, st, _ => st
  | n + 1, st, bs => md5Chunks n (md5Chunk st (bs.take 64)) (bs.drop 64)

/-- The `n` least-significant bytes of `x`, little-endian. -/
def leBytes : Nat → Nat → List Nat
  | 0, _ => []
  | n + 1, x => x % 256 :: leBytes n (x / 256)

/-- MD5 padding: a `0x80` byte, zeros up to 56 mod 64, then the 64-bit
little-endian bit length. -/
def md5Pad (msg : List Nat) : List Nat :=
  let zeros := (55 + 64 - msg.length % 64) % 64
  msg ++ [0x80] ++ List.replicate zeros 0 ++ leBytes 8 ((msg.length * 8) % 2 ^ 64)

/-- The MD5 initialization vector. -/
def md5Init : MD5State := ⟨0x67452301, 0xefcdab89, 0x98badcfe, 0x10325476⟩

/-- MD5 digest of a byte sequence: sixteen bytes (as in Go `md5.Sum`). -/
def md5Sum (msg : List Nat) : List Nat :=
  let p := md5Pad msg
  let st := md5Chunks (p.length / 64) md5Init p
  leBytes 4 st.a ++ leBytes 4 st.b ++ leBytes 4 st.c ++ leBytes 4 st.d

theorem leBytes_length (n x : Nat) : (leBytes n x).length = n := by
  induction n generalizing x with
  | zero => rfl
  | succ n ih => simp [leBytes, ih]

theorem md5Sum_length (msg : List Nat) : (md5Sum msg).length = 16 := by
  simp [md5Sum, leBytes_length]

/-- Sanity check against the RFC 1321 test vector for the empty message
(`d41d8cd98f00b204e9800998ecf8427e`). -/
theorem md5Sum_nil :
    md5Sum [] = [0xd4, 0x1d, 0x8c, 0xd9, 0x8f, 0x00, 0xb2, 0x04,
                 0xe9, 0x80, 0x09, 0x98, 0xec, 0xf8, 0x42, 0x7e] := by
  decide

/-- Sanity check against the RFC 1321 test vector for "abc"
(`900150983cd24fb0d6963f7d28e17f72`). -/
theorem md5Sum_abc :
    md5Sum [0x61, 0x62, 0x63] =
      [0x90, 0x01, 0x50, 0x98, 0x3c, 0xd2, 0x4f, 0xb0,
       0xd6, 0x96, 0x3f, 0x7d, 0x28, 0xe1, 0x7f, 0x72] := by
  decide

/-! ## Message types and metrics -/

/-- Modelled from the spec: the `stream` constant of the Go `messageType`
enumeration. The constants are declared in the repository's TCP transport
file, which is not among the sources here; the spec's frame layout fixes
`0x01 = stream`. -/
def streamByte : Nat := 0x01

/-- Modelled from the spec: the `packet` constant of the Go `messageType`
enumeration. The constants are declared in the repository's TCP transport
file, which is not among the sources here; the spec's frame layout fixes
`0x02 = packet`. -/
def packetByte : Nat := 0x02

/-- The transport's Prometheus counters (`registerMetrics`), as plain
natural-number counts. -/
structure Metrics where
  incomingStreams : Nat
  outgoingStreams : Nat
  outgoingStreamErrors : Nat
  receivedPackets : Nat
  receivedPacketsBytes : Nat
  receivedPacketsErrors : Nat
  sentPackets : Nat
  sentPacketsBytes : Nat
  sentPacketsErrors : Nat
  unknownConnections : Nat
deriving DecidableEq

/-- A fresh metrics state: all counters at zero. -/
def metrics0 : Metrics := ⟨0, 0, 0, 0, 0, 0, 0, 0, 0, 0⟩

/-! ## Inbound dispatch (`handleConnection`) -/

/-- A `memberlist.Packet` as delivered to the packet channel: the payload
bytes (`Buf`) and the sender address read from the frame (`From`).
The `Timestamp` field (`time.Now()`) is ambient time and not modelled. -/
structure Packet where
  buf : List Nat
  fromAddr : List Nat
deriving DecidableEq

/-- The observable outcome of one `handleConnection` call. `connClosed`
records whether `conn.Close()` ran; in the source the call inside the
deferred cleanup is commented out, so it is `false` on every path, while
`closeConnFlag` records the value of the `closeConn` variable at defer
time. `digestOk` is the result of the `bytes.Equal` digest comparison
when it is reached. -/
structure HandleResult where
  metrics : Metrics
  packet : Option Packet
  streamHandoff : Bool
  closeConnFlag : Bool
  connClosed : Bool
  digestOk : Option Bool
deriving DecidableEq

/-- The inbound dispatcher `handleConnection`, lines 232-320 of
`quic_transport.go`. `acceptStreamOk` models whether `conn.AcceptStream`
succeeded; `s` is the byte content of the accepted stream up to
end-of-stream, so `io.ReadFull` of `n` bytes fails exactly when fewer
than `n` bytes remain and `io.ReadAll` returns the remainder. -/
def handleConnection (m : Metrics) (acceptStreamOk : Bool) (s : List Nat) : HandleResult :=
  if acceptStreamOk = false then ⟨m, none, false, true, false, none⟩
  else
    match s with
    | [] => ⟨m, none, false, true, false, none⟩
    | msgType :: rest =>
      if msgType = streamByte then
        ⟨{ m with incomingStreams := m.incomingStreams + 1 }, none, true, false, false, none⟩
      else if msgType = packetByte then
        let m1 := { m with receivedPackets := m.receivedPackets + 1 }
        match rest with
        | [] =>
          ⟨{ m1 with receivedPacketsErrors := m1.receivedPacketsErrors + 1 },
           none, false, true, false, none⟩
        | addrLen :: rest2 =>
          if rest2.length < addrLen then
            ⟨{ m1 with receivedPacketsErrors := m1.receivedPacketsErrors + 1 },
             none, false, true, false, none⟩
          else
            let addrBuf := rest2.take addrLen
            let buf := rest2.drop addrLen
            if buf.length < 16 then
              ⟨{ m1 with receivedPacketsErrors := m1.receivedPacketsErrors + 1 },
               none, false, true, false, none⟩
            else
              let receivedDigest := buf.drop (buf.length - 16)
              let payload := buf.take (buf.length - 16)
              if receivedDigest = md5Sum payload then
                ⟨{ m1 with receivedPacketsBytes := m1.receivedPacketsBytes + payload.length },
                 some ⟨payload, addrBuf⟩, false, true, false, some true⟩
              else
                ⟨{ m1 with receivedPacketsErrors := m1.receivedPacketsErrors + 1,
                           receivedPacketsBytes := m1.receivedPacketsBytes + payload.length },
                 some ⟨payload, addrBuf⟩, false, true, false, some false⟩
      else
        ⟨{ m with unknownConnections := m.unknownConnections + 1 },
         none, false, true, false, none⟩

/-! ## Outbound writer (`writeTo` and `WriteTo`) -/

/-- The distinct failure sites of `writeTo`, one constructor per
`fmt.Errorf` site (plus the propagated dial error). -/
inductive WriteErr
  | dialFailed
  | localAddressTooLong
  | settingDeadline
  | sendingLocalAddress
  | sendingData
  | sendingDataShort
  | digestWrite
  | digestShort
  | closeFailed
deriving DecidableEq

/-- Outcomes of the network operations `writeTo` performs, which depend
on the environment: whether the dial, deadline set, header write and
close succeed, and how many bytes the payload and digest writes report. -/
structure WriteOracle where
  dialOk : Bool
  deadlineOk : Bool
  headerWriteOk : Bool
  dataWritten : Option Nat
  digestWritten : Option Nat
  closeOk : Bool
deriving DecidableEq

/-- An environment in which every network operation of `writeTo` on a
payload `b` succeeds and reports a full write. -/
def happyOracle (b : List Nat) : WriteOracle :=
  ⟨true, true, true, some b.length, some 16, true⟩

/-- The packet sender `writeTo`, lines 433-508: dial, compute the MD5
digest, build the header (`packet` byte, one-byte address length,
advertised address), optionally set the write deadline, write header,
payload and digest, close. On success the result is the full byte
sequence written to the connection. -/
def writeTo (o : WriteOracle) (packetWriteTimeout : Nat) (ourAddr b : List Nat) :
    Except WriteErr (List Nat) :=
  if o.dialOk = false then .error .dialFailed
  else
    let digest := md5Sum b
    if 255 < ourAddr.length then .error .localAddressTooLong
    else
      let header := packetByte :: ourAddr.length % 256 :: ourAddr
      if packetWriteTimeout > 0 && o.deadlineOk = false then .error .settingDeadline
      else if o.headerWriteOk = false then .error .sendingLocalAddress
      else
        match o.dataWritten with
        | none => .error .sendingData
        | some n =>
          if n ≠ b.length then .error .sendingDataShort
          else
            match o.digestWritten with
            | none => .error .digestWrite
            | some nd =>
              if nd ≠ digest.length then .error .digestShort
              else if o.closeOk = false then .error .closeFailed
              else .ok (header ++ b ++ digest)

/-- The public `WriteTo`, lines 409-431: bump `sentPackets` and
`sentPacketsBytes`, run `writeTo`, and on failure bump
`sentPacketsErrors` and swallow the error. The first component is the
updated metrics, the second the error value returned to the caller
(the `time.Now()` component of the Go return value is ambient time and
not modelled). -/
def WriteTo (o : WriteOracle) (packetWriteTimeout : Nat) (ourAddr b : List Nat)
    (m : Metrics) : Metrics × Option WriteErr :=
  let m1 := { m with sentPackets := m.sentPackets + 1,
                     sentPacketsBytes := m.sentPacketsBytes + b.length }
  match writeTo o packetWriteTimeout ourAddr b with
  | .error _ => ({ m1 with sentPacketsErrors := m1.sentPacketsErrors + 1 }, none)
  | .ok _ => (m1, none)

/-! ## Accept loop backoff (`quicListen`) -/

/-- The initial delay after an accept error, 5 ms in nanoseconds
(`baseDelay`, line 189). -/
def baseDelay : Nat := 5000000

/-- The maximum delay after an accept error, 1 s in nanoseconds
(`maxDelay`, line 194). -/
def maxDelay : Nat := 1000000000

/-- The loop-delay update performed after an accept error, lines 204-212:
start at `baseDelay`, otherwise double, then clamp to `maxDelay`. -/
def nextLoopDelay (loopDelay : Nat) : Nat :=
  let d := if loopDelay = 0 then baseDelay else loopDelay * 2
  if d > maxDelay then maxDelay else d

/-- Result of one `quicLn.Accept` call in the accept loop. -/
inductive AcceptOutcome
  | accepted
  | failed
deriving DecidableEq

/-- One iteration of the `quicListen` accept loop, lines 197-222, acting
on the current `loopDelay`: `none` means the loop exits (error while the
shutdown flag is set), `some d` means it continues with delay `d`
(reset to zero after a successful accept). -/
def quicListenStep (shutdownFlag : Bool) (loopDelay : Nat) : AcceptOutcome → Option Nat
  | .accepted => some 0
  | .failed => if shutdownFlag then none else some (nextLoopDelay loopDelay)

/-- The loop delay after `n` consecutive accept errors (shutdown unset),
starting from the zero delay a successful accept leaves behind. -/
def delayAfterErrors : Nat → Nat
  | 0 => 0
  | n + 1 => nextLoopDelay (delayAfterErrors n)

/-! ## Listener construction (`NewQuicTransport`) -/

/-- A Go `net.IP`: either a 4-byte IPv4 value or a 16-byte value.
`ParseIP` of a dotted-quad or of an IPv6 literal produces these. -/
inductive GoIP
  | ip4 : Nat → Nat → Nat → Nat → GoIP
  | ip16 : List Nat → GoIP
deriving DecidableEq

/-- Go's `IP.To4`: the 4-byte form when the address is an IPv4 address
(including the IPv4-in-IPv6 `::ffff:a.b.c.d` form), `none` otherwise.
`ListenUDP("udp4", ...)` fails with a non-IPv4 address error exactly
when this is `none` (Go `ipToSockaddrInet4`). -/
def goTo4 : GoIP → Option (Nat × Nat × Nat × Nat)
  | .ip4 a b c d => some (a, b, c, d)
  | .ip16 bs =>
    if bs.length = 16 ∧ bs.take 10 = List.replicate 10 0 ∧
       bs.getD 10 0 = 255 ∧ bs.getD 11 0 = 255 then
      some (bs.getD 12 0, bs.getD 13 0, bs.getD 14 0, bs.getD 15 0)
    else none

/-- Modelled from the spec: the constant bind-address string `"0.0.0.0"`
(`zeroZeroZeroZero`), declared outside of the sources here. -/
def zeroZeroZeroZero : String := "0.0.0.0"

/-- Modelled from the spec: the constant bind-address string `"::"`
(`colonColon`), declared outside of the sources here. -/
def colonColon : String := "::"

/-- The parsed form of `"0.0.0.0"`. -/
def ipv4zero : GoIP := .ip4 0 0 0 0

/-- The parsed form of `"::"`: sixteen zero bytes (not an IPv4 address). -/
def colonColonIP : GoIP := .ip16 (List.replicate 16 0)

/-- The failure sites of `NewQuicTransport`, one constructor per wrapped
error return. -/
inductive NewTransportErr
  | tlsConfig
  | parseBindAddr
  | udpListen
  | quicListenerFailed
deriving DecidableEq

/-- The listener-construction loop of `NewQuicTransport`, lines 138-169.
Input addresses are the `ParseIP` results of the configured bind
addresses (`none` = unparseable). `udpOk i`/`quicOk i` model
environmental failures of `net.ListenUDP`/`tr.Listen` for the `i`-th
address; binding over `"udp4"` additionally fails whenever the address
has no 4-byte form. `kernel i` is the kernel-chosen port when binding
port 0. On success, the listeners are returned with their bound ports;
when the running `port` is 0 it is replaced by the first listener's
actual port, as in the source. -/
def buildListeners (udpOk quicOk : Nat → Bool) (kernel : Nat → Nat) :
    List (Option GoIP) → Nat → Nat → Except NewTransportErr (List (GoIP × Nat))
  | [], _, _ => .ok []
  | a :: rest, i, port =>
    match a with
    | none => .error .parseBindAddr
    | some ip =>
      if (goTo4 ip).isNone then .error .udpListen
      else if udpOk i = false then .error .udpListen
      else if quicOk i = false then .error .quicListenerFailed
      else
        let actual := if port = 0 then kernel i else port
        match buildListeners udpOk quicOk kernel rest (i + 1) actual with
        | .error e => .error e
        | .ok ls => .ok ((ip, actual) :: ls)

/-- `NewQuicTransport`, lines 108-179, reduced to its observable listener
set: default the bind addresses to `["0.0.0.0"]` when empty, build the
TLS config (`tlsOk` models its success), then build all listeners. -/
def newQuicTransport (tlsOk : Bool) (udpOk quicOk : Nat → Bool) (kernel : Nat → Nat)
    (bindAddrs : List (Option GoIP)) (bindPort : Nat) :
    Except NewTransportErr (List (GoIP × Nat)) :=
  let addrs := if bindAddrs.isEmpty then [some ipv4zero] else bindAddrs
  if tlsOk = false then .error .tlsConfig
  else buildListeners udpOk quicOk kernel addrs 0 bindPort

/-- `GetAutoBindPort`, lines 328-332: the port of the first listener. -/
def getAutoBindPort (listeners : List (GoIP × Nat)) : Nat :=
  (listeners.headD (ipv4zero, 0)).2

/-! ## Advertised-address resolution (`FinalAdvertiseAddr`) -/

/-- `FinalAdvertiseAddr`, lines 338-392. `userIP` is `none` when the
caller passed an empty string, otherwise `some` of the `ParseIP` result.
`privIPv4` models `sockaddr.GetPrivateIP` followed by `ParseIP`
(collapsed to the resolved address, `none` on any failure), and
`inet6Addr` likewise models `netutil.GetFirstAddressOf` with IPv6
enabled followed by `ParseIP`. The branch taken for the first configured
bind address `"::"` is the dedicated inet6 branch of the source. -/
def finalAdvertiseAddr (bindAddr0 : String) (listenerIP : GoIP) (autoPort : Nat)
    (privIPv4 inet6Addr : Option GoIP) (userIP : Option (Option GoIP)) (userPort : Nat) :
    Except String (GoIP × Nat) :=
  match userIP with
  | some parsed =>
    match parsed with
    | none => .error "failed to parse advertise address"
    | some ip => .ok (ip, userPort)
  | none =>
    if bindAddr0 = zeroZeroZeroZero then
      match privIPv4 with
      | none => .error "no private IP address found, and explicit IP not provided"
      | some ip => .ok (ip, autoPort)
    else if bindAddr0 = colonColon then
      match inet6Addr with
      | none => .error "failed to get private inet6 address"
      | some ip => .ok (ip, autoPort)
    else .ok (listenerIP, autoPort)

/-! ## Outbound connection establishment (`getConnection`) -/

/-- The mechanism used to open a network channel. -/
inductive NetProtocol
  | tlsOverUDP
  | quicOverUDP
deriving DecidableEq

/-- A dial as performed by the transport: which mechanism, which Go
network name, the target address and the timeout. -/
structure DialCall where
  protocol : NetProtocol
  network : String
  addr : String
  timeout : Nat
deriving DecidableEq

/-- `getConnection`, lines 322-324: `tls.DialWithDialer` with the given
timeout over the plain `"udp"` network. -/
def getConnection (addr : String) (timeout : Nat) : DialCall :=
  ⟨.tlsOverUDP, "udp", addr, timeout⟩

/-- The dial performed by `writeTo` (line 435): `getConnection` with
`cfg.PacketDialTimeout`. -/
def writeToDial (packetDialTimeout : Nat) (addr : String) : DialCall :=
  getConnection addr packetDialTimeout

/-- The dial performed by `DialTimeout` (line 520): `getConnection` with
the caller's timeout. -/
def dialTimeoutDial (addr : String) (timeout : Nat) : DialCall :=
  getConnection addr timeout

/-- The protocol the inbound listeners accept: QUIC over the UDP socket
(`quic.Transport` / `tr.Listen`, lines 152-155). -/
def inboundListenProtocol : NetProtocol := .quicOverUDP

/-! ## Helper lemmas -/

/-- Parsing a well-formed packet frame (type byte, address length byte,
address, payload, 16-byte trailer): the packet is always delivered, and
the error counter is bumped exactly when the trailer differs from the
payload's MD5 digest. -/
theorem handleConnection_packetFrame (m : Metrics) (a payload dg : List Nat)
    (hdg : dg.length = 16) :
    handleConnection m true (packetByte :: a.length :: (a ++ (payload ++ dg))) =
      ⟨{ m with receivedPackets := m.receivedPackets + 1,
                receivedPacketsBytes := m.receivedPacketsBytes + payload.length,
                receivedPacketsErrors :=
                  if dg = md5Sum payload then m.receivedPacketsErrors
                  else m.receivedPacketsErrors + 1 },
       some ⟨payload, a⟩, false, true, false, some (decide (dg = md5Sum payload))⟩ := by
  have hb16 : ¬ payload.length + dg.length < 16 := by omega
  have hsub : payload.length + dg.length - 16 = payload.length := by omega
  simp [handleConnection, packetByte, streamByte, hb16, hsub,
    List.take_left, List.drop_left]
  by_cases hok : dg = md5Sum payload <;> simp [hok]

/-- `writeTo` in an all-successful environment emits exactly the frame
`packet` byte, address length, address, payload, MD5 trailer. -/
theorem writeTo_happy (pwt : Nat) (a b : List Nat) (ha : a.length ≤ 255) :
    writeTo (happyOracle b) pwt a b =
      .ok (packetByte :: a.length :: (a ++ (b ++ md5Sum b))) := by
  have h255 : ¬ 255 < a.length := by omega
  have hmod : a.length % 256 = a.length := Nat.mod_eq_of_lt (by omega)
  simp [writeTo, happyOracle, h255, hmod, md5Sum_length]

/-- When the port argument is non-zero, every listener built by the
construction loop is bound to exactly that port. -/
theorem buildListeners_fixed_port (udpOk quicOk : Nat → Bool) (kernel : Nat → Nat)
    (addrs : List (Option GoIP)) :
    ∀ i p ls, p ≠ 0 → buildListeners udpOk quicOk kernel addrs i p = .ok ls →
      ∀ l ∈ ls, l.2 = p := by
  induction addrs with
  | nil =>
    intro i p ls _ h l hl
    simp only [buildListeners, Except.ok.injEq] at h
    subst h
    simp at hl
  | cons a rest ih =>
    intro i p ls hp h
    match a with
    | none => simp [buildListeners] at h
    | some ip =>
      simp only [buildListeners] at h
      by_cases h4 : (goTo4 ip).isNone = true
      · simp [h4] at h
      · rw [if_neg h4] at h
        by_cases hu : udpOk i = false
        · simp [hu] at h
        · rw [if_neg hu] at h
          by_cases hq : quicOk i = false
          · simp [hq] at h
          · rw [if_neg hq] at h
            simp only [if_neg hp] at h
            rcases hrec : buildListeners udpOk quicOk kernel rest (i + 1) p with e | ls'
            · simp [hrec] at h
            · simp only [hrec, Except.ok.injEq] at h
              subst h
              intro l hl
              rcases List.mem_cons.mp hl with rfl | hl'
              · rfl
              · exact ih (i + 1) p ls' hp hrec l hl'

/-- Building listeners for a non-empty address list with configured port
0 succeeds only with every listener on the kernel-assigned port of the
first one. -/
theorem buildListeners_port0_cons (udpOk quicOk : Nat → Bool) (kernel : Nat → Nat)
    (a : Option GoIP) (rest : List (Option GoIP)) (i p : Nat) (ls : List (GoIP × Nat))
    (hp : p = 0)
    (h : buildListeners udpOk quicOk kernel (a :: rest) i p = .ok ls)
    (hk : kernel i ≠ 0) :
    ∃ ip ls', ls = (ip, kernel i) :: ls' ∧ ∀ l ∈ ls, l.2 = kernel i := by
  match a with
  | none => simp [buildListeners] at h
  | some ip =>
    simp only [buildListeners] at h
    by_cases h4 : (goTo4 ip).isNone = true
    · simp [h4] at h
    · rw [if_neg h4] at h
      by_cases hu : udpOk i = false
      · simp [hu] at h
      · rw [if_neg hu] at h
        by_cases hq : quicOk i = false
        · simp [hq] at h
        · rw [if_neg hq] at h
          simp only [if_pos hp] at h
          rcases hrec : buildListeners udpOk quicOk kernel rest (i + 1) (kernel i) with e | ls'
          · simp [hrec] at h
          · simp only [hrec, Except.ok.injEq] at h
            subst h
            refine ⟨ip, ls', rfl, ?_⟩
            intro l hl
            rcases List.mem_cons.mp hl with rfl | hl'
            · rfl
            · exact buildListeners_fixed_port udpOk quicOk kernel rest (i + 1) (kernel i)
                ls' hk hrec l hl'

/-- Whenever the address list contains an address with no 4-byte form,
the construction loop fails. -/
theorem buildListeners_ipv6_error (udpOk quicOk : Nat → Bool) (kernel : Nat → Nat)
    (addrs : List (Option GoIP)) (ip6 : GoIP) (h6 : goTo4 ip6 = none) :
    ∀ i p, some ip6 ∈ addrs →
      ∃ e, buildListeners udpOk quicOk kernel addrs i p = .error e := by
  induction addrs with
  | nil =>
    intro i p hmem
    simp at hmem
  | cons a rest ih =>
    intro i p hmem
    rcases List.mem_cons.mp hmem with heq | hmem'
    · refine ⟨.udpListen, ?_⟩
      simp [buildListeners, ← heq, h6]
    · match a with
      | none => exact ⟨.parseBindAddr, by simp [buildListeners]⟩
      | some ip =>
        by_cases h4 : (goTo4 ip).isNone = true
        · exact ⟨.udpListen, by simp [buildListeners, h4]⟩
        · by_cases hu : udpOk i = false
          · exact ⟨.udpListen, by simp [buildListeners, h4, hu]⟩
          · by_cases hq : quicOk i = false
            · exact ⟨.quicListenerFailed, by simp [buildListeners, h4, hu, hq]⟩
            · obtain ⟨e, he⟩ := ih (i + 1) (if p = 0 then kernel i else p) hmem'
              exact ⟨e, by simp [buildListeners, h4, hu, hq, he]⟩

/-! ## Claim theorems -/

/-- Claim C1, amended: for every accepted connection whose first stream's
first byte is the packet type (0x02), either a complete `PacketFrame`
that passes the MD5 digest check is delivered to the packet channel, or
the `packets_received_errors` counter is incremented; the increment does
not imply non-delivery, because on a digest mismatch the counter is
incremented and the unverified packet is still delivered. -/
theorem packet_dispatch_delivers_or_counts (m : Metrics) (s : List Nat)
    (h : s.head? = some packetByte) :
    ((handleConnection m true s).digestOk = some true ∧
      (handleConnection m true s).packet.isSome = true) ∨
    (handleConnection m true s).metrics.receivedPacketsErrors =
      m.receivedPacketsErrors + 1 := by
  cases s with
  | nil => simp at h
  | cons x rest =>
    obtain rfl : x = packetByte := by simpa using h
    simp only [handleConnection]
    repeat' split
    all_goals simp_all [packetByte, streamByte]

/-- Witness for C1 (amended) at the one-byte stream `[0x02]`: parsing
fails and the error counter is incremented. -/
theorem packet_dispatch_delivers_or_counts_witness :
    ((handleConnection metrics0 true [packetByte]).digestOk = some true ∧
      (handleConnection metrics0 true [packetByte]).packet.isSome = true) ∨
    (handleConnection metrics0 true [packetByte]).metrics.receivedPacketsErrors =
      metrics0.receivedPacketsErrors + 1 :=
  packet_dispatch_delivers_or_counts metrics0 [packetByte] rfl

/-- Claim C1, counterexample: on the concrete packet frame with an empty
address, empty payload and an all-zero (hence wrong) digest trailer,
the error counter is incremented and yet the packet is still delivered,
so neither "a digest-verified frame is delivered" nor "the counter is
incremented and nothing is delivered" holds. -/
theorem packet_dispatch_counterexample :
    ¬ ((((handleConnection metrics0 true
            (packetByte :: 0 :: List.replicate 16 0)).digestOk = some true) ∧
        (handleConnection metrics0 true
            (packetByte :: 0 :: List.replicate 16 0)).packet.isSome = true) ∨
       ((handleConnection metrics0 true
            (packetByte :: 0 :: List.replicate 16 0)).metrics.receivedPacketsErrors =
          metrics0.receivedPacketsErrors + 1 ∧
        (handleConnection metrics0 true
            (packetByte :: 0 :: List.replicate 16 0)).packet = none)) := by
  decide

/-- Claim C2: an inbound packet frame whose trailing 16 bytes differ from
the MD5 digest of the remaining payload increments the
`packets_received_errors` counter and is nevertheless still delivered,
with the unverified payload and the sender address taken from the frame. -/
theorem digest_mismatch_still_delivered (m : Metrics) (a payload dg : List Nat)
    (hdg : dg.length = 16) (_ha : a.length ≤ 255) (hmm : dg ≠ md5Sum payload) :
    handleConnection m true (packetByte :: a.length :: (a ++ (payload ++ dg))) =
      ⟨{ m with receivedPackets := m.receivedPackets + 1,
                receivedPacketsBytes := m.receivedPacketsBytes + payload.length,
                receivedPacketsErrors := m.receivedPacketsErrors + 1 },
       some ⟨payload, a⟩, false, true, false, some false⟩ := by
  rw [handleConnection_packetFrame m a payload dg hdg]
  simp [hmm]

/-- Witness for C2 at the concrete frame with empty address, empty
payload and an all-zero digest trailer. -/
theorem digest_mismatch_still_delivered_witness :
    handleConnection metrics0 true (packetByte :: 0 :: List.replicate 16 0) =
      ⟨⟨0, 0, 0, 1, 0, 1, 0, 0, 0, 0⟩, some ⟨[], []⟩, false, true, false, some false⟩ :=
  digest_mismatch_still_delivered metrics0 [] [] (List.replicate 16 0)
    (by decide) (by decide) (by decide)

/-- Claim C3: for every payload `p` and advertised address `a` of at most
255 bytes, the frame written by `writeTo` is `0x02`, the address length,
the address, the payload and the payload's MD5; and `handleConnection`
applied to that frame delivers exactly the packet with `Buf = p` and
`From = a`, with the digest check passing and no error counted. -/
theorem writeTo_parse_roundtrip (m : Metrics) (pwt : Nat) (p a : List Nat)
    (ha : a.length ≤ 255) :
    writeTo (happyOracle p) pwt a p =
      .ok (packetByte :: a.length :: (a ++ (p ++ md5Sum p))) ∧
    handleConnection m true (packetByte :: a.length :: (a ++ (p ++ md5Sum p))) =
      ⟨{ m with receivedPackets := m.receivedPackets + 1,
                receivedPacketsBytes := m.receivedPacketsBytes + p.length },
       some ⟨p, a⟩, false, true, false, some true⟩ := by
  refine ⟨writeTo_happy pwt a p ha, ?_⟩
  rw [handleConnection_packetFrame m a p (md5Sum p) (md5Sum_length p)]
  simp

/-- Witness for C3 at payload `"hi"` and address `"1"`. -/
theorem writeTo_parse_roundtrip_witness :
    writeTo (happyOracle [104, 105]) 0 [49] [104, 105] =
      .ok (packetByte :: 1 :: ([49] ++ ([104, 105] ++ md5Sum [104, 105]))) ∧
    handleConnection metrics0 true
        (packetByte :: 1 :: ([49] ++ ([104, 105] ++ md5Sum [104, 105]))) =
      ⟨⟨0, 0, 0, 1, 2, 0, 0, 0, 0, 0⟩, some ⟨[104, 105], [49]⟩,
       false, true, false, some true⟩ :=
  writeTo_parse_roundtrip metrics0 0 [104, 105] [49] (by decide)

/-- Claim C4: `WriteTo` always returns a `nil` error, whatever the
environment does to the underlying send; it always bumps `sentPackets`
and `sentPacketsBytes`, and bumps `sentPacketsErrors` exactly when the
inner `writeTo` failed. (The `time.Now()` component of the Go return
value is ambient time and is not modelled.) -/
theorem WriteTo_swallows_errors (o : WriteOracle) (pwt : Nat) (ourAddr b : List Nat)
    (m : Metrics) :
    (WriteTo o pwt ourAddr b m).2 = none ∧
    (WriteTo o pwt ourAddr b m).1.sentPackets = m.sentPackets + 1 ∧
    (WriteTo o pwt ourAddr b m).1.sentPacketsBytes = m.sentPacketsBytes + b.length ∧
    (WriteTo o pwt ourAddr b m).1.sentPacketsErrors =
      (match writeTo o pwt ourAddr b with
       | .error _ => m.sentPacketsErrors + 1
       | .ok _ => m.sentPacketsErrors) := by
  unfold WriteTo
  rcases hw : writeTo o pwt ourAddr b with e | v <;> simp [hw]

/-- Claim C5: provided the dial succeeded (the length check sits after
the dial in the source), `writeTo` fails with `local address too long`
exactly when the cached advertised address exceeds 255 bytes; an address
of at most 255 bytes passes the check, and on a fully successful send
its exact length is the single `addrLen` header byte of the frame. -/
theorem writeTo_local_address_too_long (o : WriteOracle) (pwt : Nat) (a b : List Nat)
    (hd : o.dialOk = true) :
    (writeTo o pwt a b = .error .localAddressTooLong ↔ 255 < a.length) ∧
    (a.length ≤ 255 →
      writeTo (happyOracle b) pwt a b =
        .ok (packetByte :: a.length :: (a ++ (b ++ md5Sum b)))) := by
  refine ⟨?_, fun ha => writeTo_happy pwt a b ha⟩
  by_cases hlen : 255 < a.length
  · simp [writeTo, hd, hlen]
  · have hne : writeTo o pwt a b ≠ .error .localAddressTooLong := by
      simp only [writeTo, hd, hlen]
      repeat' split
      all_goals simp_all
    exact ⟨fun hcontra => absurd hcontra hne, fun h255 => absurd h255 hlen⟩

/-- Witness for C5 at a 256-byte address (in the all-successful
environment, whose dial succeeds). -/
theorem writeTo_local_address_too_long_witness :
    (writeTo (happyOracle [1]) 0 (List.replicate 256 97) [1] =
        .error .localAddressTooLong ↔ 255 < (List.replicate 256 97).length) ∧
    ((List.replicate 256 97).length ≤ 255 →
      writeTo (happyOracle [1]) 0 (List.replicate 256 97) [1] =
        .ok (packetByte :: (List.replicate 256 97).length ::
          (List.replicate 256 97 ++ ([1] ++ md5Sum [1])))) :=
  writeTo_local_address_too_long (happyOracle [1]) 0 (List.replicate 256 97) [1] rfl

/-- Claim C6: in the accept loop, the retry delay after `n + 1`
consecutive accept errors is exactly `min (5ms * 2 ^ n) 1s` — it starts
at 5 ms, doubles on each further consecutive error and never exceeds
1 s — it resets to zero after a successful accept, and an accept error
while the shutdown flag is set exits the loop. -/
theorem quicListen_backoff :
    (∀ n, delayAfterErrors (n + 1) = min (baseDelay * 2 ^ n) maxDelay) ∧
    (∀ d, nextLoopDelay d ≤ maxDelay) ∧
    (∀ sd d, quicListenStep sd d .accepted = some 0) ∧
    (∀ d, quicListenStep true d .failed = none) := by
  have hbM : baseDelay ≤ maxDelay := by norm_num [baseDelay, maxDelay]
  have hM : 0 < maxDelay := by norm_num [maxDelay]
  refine ⟨?_, ?_, fun _ _ => rfl, fun _ => rfl⟩
  · intro n
    induction n with
    | zero => decide
    | succ n ih =>
      have h2 : baseDelay * 2 ^ (n + 1) = baseDelay * 2 ^ n * 2 := by ring
      have hb : 0 < baseDelay * 2 ^ n :=
        Nat.mul_pos (by norm_num [baseDelay]) (pow_pos (by norm_num) n)
      rw [delayAfterErrors, ih]
      simp only [nextLoopDelay]
      repeat' split
      all_goals omega
  · intro d
    simp only [nextLoopDelay]
    repeat' split
    all_goals omega

/-- Claim C7: with a configured bind port of 0, construction succeeds
only with every listener bound to the kernel-assigned (non-zero) port of
the first listener, and `GetAutoBindPort` returns exactly that shared
port. -/
theorem auto_bind_port_shared (tlsOk : Bool) (udpOk quicOk : Nat → Bool)
    (kernel : Nat → Nat) (bindAddrs : List (Option GoIP)) (ls : List (GoIP × Nat))
    (h : newQuicTransport tlsOk udpOk quicOk kernel bindAddrs 0 = .ok ls)
    (hk : kernel 0 ≠ 0) :
    (∀ l ∈ ls, l.2 = kernel 0) ∧ getAutoBindPort ls = kernel 0 ∧
      getAutoBindPort ls ≠ 0 := by
  simp only [newQuicTransport] at h
  rcases htls : tlsOk with _ | _
  · simp [htls] at h
  · rw [htls] at h
    simp only [Bool.true_eq_false, if_false] at h
    have hcons : ∃ a rest, (if bindAddrs.isEmpty then [some ipv4zero] else bindAddrs) =
        a :: rest := by
      cases bindAddrs with
      | nil => exact ⟨some ipv4zero, [], rfl⟩
      | cons a rest => exact ⟨a, rest, rfl⟩
    obtain ⟨a, rest, heq⟩ := hcons
    rw [heq] at h
    obtain ⟨ip, ls', rfl, hall⟩ := buildListeners_port0_cons udpOk quicOk kernel
      a rest 0 0 ls rfl h hk
    exact ⟨hall, rfl, hk⟩

/-- Witness for C7: two loopback bind addresses with port 0 and a kernel
that assigns 7946. -/
theorem auto_bind_port_shared_witness :
    (∀ l ∈ [(ipv4zero, 7946), (GoIP.ip4 127 0 0 1, 7946)], l.2 = 7946) ∧
    getAutoBindPort [(ipv4zero, 7946), (GoIP.ip4 127 0 0 1, 7946)] = 7946 ∧
    getAutoBindPort [(ipv4zero, 7946), (GoIP.ip4 127 0 0 1, 7946)] ≠ 0 :=
  auto_bind_port_shared true (fun _ => true) (fun _ => true) (fun _ => 7946)
    [some ipv4zero, some (GoIP.ip4 127 0 0 1)]
    [(ipv4zero, 7946), (GoIP.ip4 127 0 0 1, 7946)] (by rfl) (by decide)

/-- Claim C8 (code bug): the `conn.Close()` in the deferred cleanup of
`handleConnection` is commented out in the source, so a connection
dispatched as a packet is left open after its frame is read (even though
its `closeConn` flag remains `true`), and an unknown-type connection is
likewise left open after `unknown_connections` is incremented; only the
flag, not an actual close, distinguishes stream handovers. -/
theorem dispatcher_never_closes :
    (handleConnection metrics0 true (packetByte :: 0 :: List.replicate 16 0)).packet.isSome
        = true ∧
    (handleConnection metrics0 true (packetByte :: 0 :: List.replicate 16 0)).closeConnFlag
        = true ∧
    (handleConnection metrics0 true (packetByte :: 0 :: List.replicate 16 0)).connClosed
        = false ∧
    (handleConnection metrics0 true [5]).metrics.unknownConnections =
        metrics0.unknownConnections + 1 ∧
    (handleConnection metrics0 true [5]).closeConnFlag = true ∧
    (handleConnection metrics0 true [5]).connClosed = false ∧
    (handleConnection metrics0 true [streamByte]).closeConnFlag = false ∧
    (handleConnection metrics0 true [streamByte]).connClosed = false := by
  decide

/-- Claim C9: both outbound paths — `writeTo` (hence `WriteTo`) and
`DialTimeout` — open their channel through `getConnection`, which is
`tls.DialWithDialer` over the plain `"udp"` network, not the QUIC
protocol the inbound listeners accept. -/
theorem outbound_dials_tls_over_udp (packetDialTimeout t : Nat) (a : String) :
    writeToDial packetDialTimeout a =
      ⟨.tlsOverUDP, "udp", a, packetDialTimeout⟩ ∧
    dialTimeoutDial a t = ⟨.tlsOverUDP, "udp", a, t⟩ ∧
    (writeToDial packetDialTimeout a).protocol ≠ inboundListenProtocol ∧
    (dialTimeoutDial a t).protocol ≠ inboundListenProtocol := by
  refine ⟨rfl, rfl, ?_, ?_⟩ <;>
    simp [writeToDial, dialTimeoutDial, getConnection, inboundListenProtocol]

/-- Claim C10: `NewQuicTransport` binds with the `"udp4"` network only,
so any configuration containing a bind address with no IPv4 form
(such as `"::"`) makes construction return an error — even though
`FinalAdvertiseAddr` has a dedicated branch resolving an IPv6 advertise
address when the first bind address is `"::"`. -/
theorem ipv6_bind_fails (tlsOk : Bool) (udpOk quicOk : Nat → Bool) (kernel : Nat → Nat)
    (bindAddrs : List (Option GoIP)) (bindPort : Nat) (ip6 : GoIP)
    (hmem : some ip6 ∈ bindAddrs) (h6 : goTo4 ip6 = none) :
    (∃ e, newQuicTransport tlsOk udpOk quicOk kernel bindAddrs bindPort = .error e) ∧
    (∀ (listenerIP inet6IP : GoIP) (autoPort userPort : Nat) (priv : Option GoIP),
      finalAdvertiseAddr colonColon listenerIP autoPort priv (some inet6IP) none userPort =
        .ok (inet6IP, autoPort)) := by
  constructor
  · have hne : bindAddrs.isEmpty = false := by
      cases bindAddrs with
      | nil => simp at hmem
      | cons _ _ => rfl
    rcases htls : tlsOk with _ | _
    · exact ⟨.tlsConfig, by simp [newQuicTransport, hne, htls]⟩
    · obtain ⟨e, he⟩ := buildListeners_ipv6_error udpOk quicOk kernel bindAddrs ip6 h6
        0 bindPort hmem
      exact ⟨e, by simp [newQuicTransport, hne, htls, he]⟩
  · intro lip i6 ap up priv
    have hss : ¬ colonColon = zeroZeroZeroZero := by decide
    simp [finalAdvertiseAddr, hss]

/-- Witness for C10: a configuration whose only bind address is `"::"`. -/
theorem ipv6_bind_fails_witness :
    (∃ e, newQuicTransport true (fun _ => true) (fun _ => true) (fun _ => 7946)
        [some colonColonIP] 7946 = .error e) ∧
    (∀ (listenerIP inet6IP : GoIP) (autoPort userPort : Nat) (priv : Option GoIP),
      finalAdvertiseAddr colonColon listenerIP autoPort priv (some inet6IP) none userPort =
        .ok (inet6IP, autoPort)) :=
  ipv6_bind_fails true (fun _ => true) (fun _ => true) (fun _ => 7946)
    [some colonColonIP] 7946 colonColonIP (by decide) (by decide)

end DskitQuic
